import Mathlib

/-!
Shallow embedding of `src/StyleTransfer/style.py` (neural style transfer on top
of a pretrained caffe network). Machine floats are modelled by exact rationals;
numpy 2-D arrays of a known shape by functions `Fin m → Fin n → ℚ`; numpy arrays
of shape known only at runtime by nested lists; Python dicts built by iteration
by association lists. The caffe network itself is external to the repository
(the spec treats it as an opaque feature-extraction oracle), so it is modelled
as a structure of oracle fields carrying only the contracts the adapter layer
relies on.
-/

open scoped BigOperators

/-- A 2-D float array of shape `(m, n)`, entries as exact rationals. -/
abbrev MatQ (m n : ℕ) := Fin m → Fin n → ℚ

/-- Sum of all entries of a matrix (`numpy.ndarray.sum()`). -/
def entSum {m n : ℕ} (A : MatQ m n) : ℚ := ∑ i, ∑ j, A i j

/-- `scipy.linalg.blas.sgemm(alpha, A, B)` on shaped matrices: `alpha * (A @ B)`. -/
def sgemmF {m n p : ℕ} (alpha : ℚ) (A : MatQ m n) (B : MatQ n p) : MatQ m p :=
  fun i j => alpha * ∑ k, A i k * B k j

/-- `_compute_style_grad` (style.py lines 17-27), specialised to the layer's
activation `Fl` (shape `(ch, sp)` = `F[layer]`), current Gram `Gl` (`G[layer]`)
and target Gram `Gs` (`G_style[layer]`).
`c = Fl.shape[0]**-2 * Fl.shape[1]**-2`; `El = Gl - G_style[layer]`;
`loss = c/4 * (El**2).sum()`; `grad = c * sgemm(1.0, El, Fl) * (Fl > 0)`,
where the numpy boolean mask `(Fl > 0)` multiplies entrywise as 1/0. -/
def compute_style_grad {ch sp : ℕ} (Fl : MatQ ch sp) (Gl Gs : MatQ ch ch) :
    ℚ × MatQ ch sp :=
  let c : ℚ := ((ch : ℚ) ^ 2)⁻¹ * ((sp : ℚ) ^ 2)⁻¹
  let El : MatQ ch ch := fun i j => Gl i j - Gs i j
  (c / 4 * entSum (fun i j => El i j ^ 2),
   fun i j => c * sgemmF 1 El Fl i j * (if 0 < Fl i j then 1 else 0))

/-- `_compute_content_grad` (style.py lines 30-42), specialised to the layer's
current activation `Fl` (`F[layer]`) and target activation `Fc`
(`F_content[layer]`). `El = Fl - Fc`; `loss = (El**2).sum() / 2`;
`grad = El * (Fl > 0)`. -/
def compute_content_grad {ch sp : ℕ} (Fl Fc : MatQ ch sp) : ℚ × MatQ ch sp :=
  let El : MatQ ch sp := fun i j => Fl i j - Fc i j
  (entSum (fun i j => El i j ^ 2) / 2,
   fun i j => El i j * (if 0 < Fl i j then 1 else 0))

/-- A 2-D float array whose shape is known only at runtime, as a list of rows
(`numpy` row-major). -/
abbrev RMat := List (List ℚ)

/-- A 3-D float array `(a, b, c)`, e.g. one image's blob data. -/
abbrev Act3 := List (List (List ℚ))

/-- Dot product of two rows. -/
def dotQ (a b : List ℚ) : ℚ := (List.zipWith (· * ·) a b).sum

/-- `numpy.ndarray.T` on a runtime-shaped 2-D array (list of rows). -/
def transposeQ : RMat → RMat
  | [] => []
  | [r] => r.map (fun x => [x])
  | r :: rs => List.zipWith (fun x col => x :: col) r (transposeQ rs)

/-- Matrix product `A @ B` on runtime-shaped arrays: row `i` of the result
holds the dot products of row `i` of `A` with the columns of `B`. -/
def matMulL (A B : RMat) : RMat :=
  A.map fun ar => (transposeQ B).map fun bc => dotQ ar bc

/-- `scipy.linalg.blas.sgemm(alpha, A, B) = alpha * (A @ B)` on runtime-shaped
arrays. -/
def sgemmL (alpha : ℚ) (A B : RMat) : RMat :=
  (matMulL A B).map (List.map (alpha * ·))

/-- `np.reshape(f, (a, b*c))` applied to an `(a, b, c)` tensor: row-major
flattening of the two spatial dimensions of each channel. -/
def reshape2 (t : Act3) : RMat := t.map List.flatten

/-- The caffe network as the feature-extraction oracle of the spec: after
`net.blobs["data"].data[0] = net_in; net.forward()`, the blob data
`net.blobs[layer].data[0]` is a function of the input alone (the weights are
fixed), modelled by the field `act`. -/
structure CNet where
  act : Act3 → String → Act3

/-- `_compute_reprs` (style.py lines 45-75). The two Python dicts are modelled
as association lists; the iteration over `set(layers_style) | set(layers_content)`
is modelled as iteration over `(layers_style ++ layers_content).dedup` (the
claims checked here do not depend on the set's iteration order). The loop body
stores `repr_c[layer] = f_sc` unconditionally and
`repr_s[layer] = sgemm(gram_scale, f_sc, f_sc.T)` only when
`layer in layers_style`; the `if layers_style == []` / `if layers_content == []`
statements of lines 60-63 reassign the still-empty dicts and are no-ops.
The source's `gram_scale=1` default argument is passed explicitly by callers
here. -/
def compute_reprs (net : CNet) (netIn : Act3) (layersStyle layersContent : List String)
    (gramScale : ℚ) : List (String × RMat) × List (String × RMat) :=
  let union := (layersStyle ++ layersContent).dedup
  let reprC := union.map fun layer => (layer, reshape2 (net.act netIn layer))
  let reprS := (union.filter fun layer => decide (layer ∈ layersStyle)).map fun layer =>
    (layer, sgemmL gramScale (reshape2 (net.act netIn layer))
      (transposeQ (reshape2 (net.act netIn layer))))
  (reprS, reprC)

/-- `gram_scale = float(img_content.size)/img_style.size` (style.py line 239),
the ratio of total element counts of the two rescaled images. -/
def transfer_gram_scale (contentSize styleSize : ℕ) : ℚ :=
  (contentSize : ℚ) / (styleSize : ℚ)

/-- The style-target computation of `StyleTransfer.transfer_style`
(style.py lines 236-241): after reshaping the network to the style image,
`G_style = _compute_reprs(net_in, self.net, layers, [], gram_scale=1)[0]`.
The local `gram_scale` of line 239 is computed and then not used: the call on
lines 240-241 passes the literal `1`. -/
def transfer_style_targets (net : CNet) (netIn : Act3) (styleLayers : List String)
    (contentSize styleSize : ℕ) : List (String × RMat) :=
  let gram_scale := transfer_gram_scale contentSize styleSize
  (compute_reprs net netIn styleLayers [] 1).1

/-- A concrete one-layer network oracle used to evaluate the embedding on
explicit inputs: every blob holds the `(1,1,1)` tensor `[[[1]]]`. -/
def cnetEx : CNet := ⟨fun _ _ => [[[1]]]⟩

/-- A concrete `(1,1,1)` input image. -/
def imgEx : Act3 := [[[0]]]

/-- `STYLE_SCALE = 1.2` (style.py line 14). -/
def STYLE_SCALE : ℚ := 6 / 5

/-- The style-image scale factor of `transfer_style` (style.py lines 229-230):
`scale = max(length / float(max(img_style.shape[:2])), orig_dim / float(min(img_style.shape[:2])))`,
with `h`, `w` the style image's first two dimensions and `orig_dim` the
network's (square) input size `min(self.net.blobs["data"].shape[2:])`. -/
def style_scale_factor (origDim length h w : ℚ) : ℚ :=
  max (length / max h w) (origDim / min h w)

/-- Shorter side of the rescaled style image:
`img_style = rescale(img_style, STYLE_SCALE*scale)` (style.py line 231)
multiplies both spatial sides by `STYLE_SCALE * scale`. -/
def scaled_style_short (origDim length h w : ℚ) : ℚ :=
  STYLE_SCALE * style_scale_factor origDim length h w * min h w

/-- Longer side of the rescaled style image (style.py line 231). -/
def scaled_style_long (origDim length h w : ℚ) : ℚ :=
  STYLE_SCALE * style_scale_factor origDim length h w * max h w

/-- The pixel-bounds construction of `transfer_style` (style.py lines 250-255):
`data_min = -self.transformer.mean["data"][:,0,0]`,
`data_max = data_min + self.transformer.raw_scale["data"]`, and
`data_bounds = [(data_min[0], data_max[0])]*(img0.size/3) + [(data_min[1], data_max[1])]*(img0.size/3) + [(data_min[2], data_max[2])]*(img0.size/3)`,
where `img0.size/3` is Python-2 integer division. `mean` is the transformer's
per-channel input mean, `rawScale` its raw scale, `sz = img0.size` the seed
image's total element count. -/
def data_bounds (mean : Fin 3 → ℚ) (rawScale : ℚ) (sz : ℕ) : List (ℚ × ℚ) :=
  List.replicate (sz / 3) (-mean 0, -mean 0 + rawScale)
    ++ (List.replicate (sz / 3) (-mean 1, -mean 1 + rawScale)
      ++ List.replicate (sz / 3) (-mean 2, -mean 2 + rawScale))

/-- The bounds as built inside `transfer_style`: `load_model` sets
`transformer.set_raw_scale("data", 255)` (style.py line 190), so
`rawScale = 255`. -/
def transfer_data_bounds (mean : Fin 3 → ℚ) (sz : ℕ) : List (ℚ × ℚ) :=
  data_bounds mean 255 sz

/-- A concrete per-channel mean used to evaluate the bounds on explicit
inputs. -/
def meanEx : Fin 3 → ℚ := fun i => (i : ℚ) + 7

/-- numpy dtypes relevant to the objective function's formatting step. -/
inductive Dtype
  | float32
  | float64
deriving DecidableEq

/-- A 1-D numpy array: a dtype tag and the (exact-rational) entries. -/
structure NdVec where
  dtype : Dtype
  data : List ℚ
deriving DecidableEq

/-- The network as seen by `style_optfn` (style.py lines 78-131), with the
caffe net as the external oracle: `inputShape` is
`net.blobs["data"].data.shape[1:]`; `lossAt` is the total loss accumulated
over the reversed layer traversal of lines 106-122 (whose per-layer terms are
the functions `compute_style_grad` and `compute_content_grad` embedded above,
applied to the oracle's activations); `dataDiff` is the input-space gradient
`net.blobs["data"].diff[0]` after the final `net.backward` call of the
traversal, flattened row-major. `diff_shape` is the caffe blob contract: a
blob's diff buffer has the blob's own shape, so the data blob's diff has
exactly `inputShape`-many entries. -/
structure OptNet where
  inputShape : ℕ × ℕ × ℕ
  lossAt : List ℚ → ℚ
  dataDiff : List ℚ → List ℚ
  diff_shape : ∀ x, (dataDiff x).length
    = inputShape.1 * inputShape.2.1 * inputShape.2.2

/-- `style_optfn` (style.py lines 78-131) as a function of the flattened
candidate `x`. Line 97 `x.reshape(net.blobs["data"].data.shape[1:])` raises
unless `x.size` equals the configured input size (modelled as `none`);
otherwise the traversal produces the loss and the input-space gradient, and
lines 129-131 format the result: `grad = grad.flatten().astype(np.float64)` —
a 1-D array with dtype float64 regardless of the dtype of `x` — and return
`(loss, grad)`. -/
def style_optfn (net : OptNet) (x : NdVec) : Option (ℚ × NdVec) :=
  if x.data.length = net.inputShape.1 * net.inputShape.2.1 * net.inputShape.2.2 then
    some (net.lossAt x.data, ⟨Dtype.float64, net.dataDiff x.data⟩)
  else none

/-- A concrete oracle with input shape `(1,1,1)`, zero loss and zero
gradient, used to evaluate `style_optfn` on explicit inputs. -/
def onetEx : OptNet :=
  { inputShape := (1, 1, 1)
    lossAt := fun _ => 0
    dataDiff := fun _ => [0]
    diff_shape := fun _ => rfl }

/-- The result object of `scipy.optimize.minimize` as consumed by
`transfer_style`: scipy's OptimizeResult carries (among other fields) the
final candidate array `x` and the accepted-iteration count `nit`. -/
structure MinimizeResult where
  x : List ℚ
  nit : ℕ

/-- The return value of `StyleTransfer.transfer_style` (style.py lines
270-271): `res = minimize(style_optfn, img0.flatten(), **minfn_args).nit;
return res` — only the `nit` field of the optimizer's result object is
returned. -/
def transfer_style_return (r : MinimizeResult) : ℕ := r.nit

/-- The construction-time error kind named by the spec's error-handling
design. -/
inductive InitError
  | invalidWeightsConfig
deriving DecidableEq

/-- A weights configuration `{"content": {...}, "style": {...}}`, each
sub-mapping an association list from layer name to weight. -/
structure WeightsCfg where
  content : List (String × ℚ)
  style : List (String × ℚ)
deriving DecidableEq

/-- The hard-coded weights dictionary of `StyleTransfer.__init__`
(style.py lines 149-154); `0.2 = 1/5`. -/
def default_weights : WeightsCfg :=
  { content := [("conv4_2", 1)]
    style := [("conv1_1", 1 / 5), ("conv2_1", 1 / 5), ("conv3_1", 1 / 5),
              ("conv4_1", 1 / 5), ("conv5_1", 1 / 5)] }

/-- The layer names referenced by a weights configuration (keys of both
sub-mappings). -/
def weighted_layers (w : WeightsCfg) : List String :=
  w.style.map Prod.fst ++ w.content.map Prod.fst

/-- The object state established by `StyleTransfer.__init__` and read/written
by `transfer_style` (style.py lines 157-163). -/
structure STState where
  grad_iter : ℕ
  weights : WeightsCfg
  layers : List String
deriving DecidableEq

/-- `StyleTransfer.__init__` (style.py lines 138-163), as a function of the
network's ordered blob-name list (loading the model files and constructing
the caffe net and transformer are external I/O, out of scope). The body
performs no validation of the weights configuration and raises nothing:
`self.grad_iter = 0`, the weights are the hard-coded dictionary, and
`self.layers` collects, in blob order, the blobs carrying a style or content
weight (`if layer in self.weights["style"] or layer in self.weights["content"]`,
lines 160-163). The `Except` result type makes the spec's construction-time
`InvalidWeightsConfig` failure statable; the code's only outcome is `.ok`. -/
def st_init (netBlobs : List String) : Except InitError STState :=
  .ok { grad_iter := 0
        weights := default_weights
        layers := netBlobs.filter fun layer =>
          decide (layer ∈ default_weights.style.map Prod.fst)
            || decide (layer ∈ default_weights.content.map Prod.fst) }

/-- The progress callback defined inside `transfer_style` (style.py lines
266-268): `self.grad_iter += 1`, then the iteration line printed reports the
updated `self.grad_iter`. Returns the updated state and the reported
iteration number. -/
def st_callback (s : STState) : STState × ℕ :=
  ({ s with grad_iter := s.grad_iter + 1 }, s.grad_iter + 1)

/-- The optimizer (external oracle) invokes `transfer_style`'s callback once
per accepted L-BFGS-B iteration; this iterates `k` such invocations from
state `s`, collecting the reported iteration numbers. `transfer_style` writes
`grad_iter` only through the callback (lines 215-271 contain no other
assignment to it), so `k` callback invocations are the whole effect of one
`transfer_style` call on the iteration counter. -/
def run_callbacks : ℕ → STState → STState × List ℕ
  | 0, s => (s, [])
  | k + 1, s =>
    let p := st_callback s
    let rest := run_callbacks k p.1
    (rest.1, p.2 :: rest.2)

/-- The concrete state `st_init ["conv1_1"]` produces, used as a witness
input. -/
def stEx : STState :=
  { grad_iter := 0, weights := default_weights, layers := ["conv1_1"] }

/-- C2: the style loss/gradient function returns
`loss = (c/4) * Σ (Gl - Sl)²` and `grad = c * ((Gl - Sl) @ Fl)` with entries
zeroed wherever `Fl ≤ 0`, where `c = 1/(channels² * spatial²)`. -/
theorem compute_style_grad_spec {ch sp : ℕ} (Fl : MatQ ch sp) (Gl Gs : MatQ ch ch) :
    (compute_style_grad Fl Gl Gs).1
        = 1 / ((ch : ℚ) ^ 2 * (sp : ℚ) ^ 2) / 4 * (∑ i, ∑ j, (Gl i j - Gs i j) ^ 2)
      ∧ ∀ i j, (compute_style_grad Fl Gl Gs).2 i j
        = if Fl i j ≤ 0 then 0
          else 1 / ((ch : ℚ) ^ 2 * (sp : ℚ) ^ 2) * ∑ k, (Gl i k - Gs i k) * Fl k j := by
  constructor
  · simp only [compute_style_grad, entSum]
    rw [one_div, mul_inv]
  · intro i j
    by_cases h : 0 < Fl i j
    · rw [if_neg (not_le.mpr h)]
      simp only [compute_style_grad, sgemmF, if_pos h, mul_one, one_mul]
      rw [one_div, mul_inv]
    · rw [if_pos (not_lt.mp h)]
      simp only [compute_style_grad, if_neg h, mul_zero]

/-- C3: the content loss/gradient function returns
`loss = (Σ (Fl - Cl)²) / 2` and `grad = Fl - Cl` with entries zeroed wherever
`Fl ≤ 0`. -/
theorem compute_content_grad_spec {ch sp : ℕ} (Fl Fc : MatQ ch sp) :
    (compute_content_grad Fl Fc).1 = (∑ i, ∑ j, (Fl i j - Fc i j) ^ 2) / 2
      ∧ ∀ i j, (compute_content_grad Fl Fc).2 i j
        = if Fl i j ≤ 0 then 0 else Fl i j - Fc i j := by
  constructor
  · simp [compute_content_grad, entSum]
  · intro i j
    by_cases h : 0 < Fl i j
    · rw [if_neg (not_le.mpr h)]
      simp [compute_content_grad, if_pos h]
    · rw [if_pos (not_lt.mp h)]
      simp [compute_content_grad, if_neg h]

theorem dedup_filter_mem (l : List String) :
    l.dedup.filter (fun a => decide (a ∈ l)) = l.dedup := by
  apply List.filter_eq_self.mpr
  intro a ha
  simpa using List.mem_dedup.mp ha

theorem sgemmL_one (A B : RMat) : sgemmL 1 A B = matMulL A B := by
  simp [sgemmL]

/-- C4 counterexample: with style layers `["conv1_1"]` and an empty
content-layer list, `_compute_reprs` returns a NON-empty content mapping —
the loop stores a content representation for every layer of the union, so the
claimed symmetry fails. -/
theorem compute_reprs_empty_content_cex :
    (compute_reprs cnetEx imgEx ["conv1_1"] [] 1).2 = [("conv1_1", [[(1 : ℚ)]])]
      ∧ (compute_reprs cnetEx imgEx ["conv1_1"] [] 1).2 ≠ [] := by
  refine ⟨?_, ?_⟩
  · norm_num [compute_reprs, cnetEx, imgEx, reshape2]
  · norm_num [compute_reprs, cnetEx, imgEx, reshape2]

/-- C4 (amended): an empty style-layer set yields an empty style mapping
(whatever the content layers); with both layer sets empty both mappings are
empty; but with an empty content-layer set the content mapping has exactly one
entry per distinct style layer (content representations are produced
unconditionally for every requested layer). -/
theorem compute_reprs_empty_layer_sets (net : CNet) (netIn : Act3)
    (ls lc : List String) (g : ℚ) :
    (compute_reprs net netIn [] lc g).1 = []
      ∧ compute_reprs net netIn [] [] g = ([], [])
      ∧ ((compute_reprs net netIn ls [] g).2).map Prod.fst = ls.dedup := by
  refine ⟨?_, ?_, ?_⟩
  · simp [compute_reprs]
  · simp [compute_reprs]
  · have h : (Prod.fst ∘ fun layer : String => (layer, reshape2 (net.act netIn layer)))
      = id := rfl
    simp [compute_reprs, h]

/-- C1 counterexample: with a rescaled content image of 18 elements and style
image of 9 elements the computed `gram_scale` is 2, yet the stored style
target for layer `conv1_1` is the UNSCALED Gram matrix `[[1]]` (the call on
style.py lines 240-241 passes `gram_scale=1`), not `gram_scale` times
`F·Fᵀ = [[2]]`. -/
theorem transfer_style_targets_scale_cex :
    transfer_gram_scale 18 9 = 2
      ∧ transfer_style_targets cnetEx imgEx ["conv1_1"] 18 9
          = [("conv1_1", [[(1 : ℚ)]])]
      ∧ sgemmL 2 (reshape2 (cnetEx.act imgEx "conv1_1"))
          (transposeQ (reshape2 (cnetEx.act imgEx "conv1_1"))) = [[(2 : ℚ)]]
      ∧ ([[(1 : ℚ)]] : RMat) ≠ [[(2 : ℚ)]] := by
  refine ⟨?_, ?_, ?_, by decide⟩
  · unfold transfer_gram_scale
    norm_num
  · norm_num [transfer_style_targets, compute_reprs, cnetEx, imgEx, reshape2,
      sgemmL, matMulL, transposeQ, dotQ]
  · norm_num [cnetEx, imgEx, reshape2, sgemmL, matMulL, transposeQ, dotQ]

/-- C1 (amended): the style targets stored by `transfer_style` are the
unscaled Gram matrices `F·Fᵀ` of the reshaped style-layer activations: the
orchestrator computes `gram_scale = content_pixel_count / style_pixel_count`
but passes the literal `1` to `_compute_reprs`, so the computed ratio is
unused. -/
theorem transfer_style_targets_unscaled (net : CNet) (netIn : Act3)
    (styleLayers : List String) (cs ss : ℕ) :
    transfer_style_targets net netIn styleLayers cs ss
      = styleLayers.dedup.map fun layer =>
          (layer, matMulL (reshape2 (net.act netIn layer))
            (transposeQ (reshape2 (net.act netIn layer)))) := by
  unfold transfer_style_targets compute_reprs
  simp only [List.append_nil, dedup_filter_mem, sgemmL_one]

/-- C5 counterexample: for a 100x100 style image, network input size 224 and
target length 512, the rescaled longer side is `3072/5 = 614.4 > 512` (the
caller-specified maximum is exceeded) and the rescaled shorter side is also
`3072/5`, not `1.2 * 224 = 268.8` — both conjuncts of the claim fail. -/
theorem scaled_style_cex :
    scaled_style_long 224 512 100 100 = 3072 / 5
      ∧ ¬ scaled_style_long 224 512 100 100 ≤ 512
      ∧ scaled_style_short 224 512 100 100 = 3072 / 5
      ∧ (3072 / 5 : ℚ) ≠ STYLE_SCALE * 224 := by
  refine ⟨?_, ?_, ?_, ?_⟩ <;>
    norm_num [scaled_style_long, scaled_style_short, style_scale_factor,
      STYLE_SCALE, max_def, min_def]

/-- C5 (amended): the larger of the two candidate scale factors wins, so the
two constraints hold as LOWER bounds inflated by the 1.2 oversampling factor:
the rescaled shorter side is at least `1.2 * orig_dim` and the rescaled longer
side is at least `1.2 * length` (in particular the longer side always exceeds
the caller-specified target length instead of respecting it as a maximum). -/
theorem scaled_style_bounds (origDim length h w : ℚ) (hh : 0 < h) (hw : 0 < w) :
    STYLE_SCALE * origDim ≤ scaled_style_short origDim length h w
      ∧ STYLE_SCALE * length ≤ scaled_style_long origDim length h w := by
  have hm : 0 < min h w := lt_min hh hw
  have hM : 0 < max h w := lt_of_lt_of_le hh (le_max_left h w)
  have hs : (0 : ℚ) ≤ STYLE_SCALE := by norm_num [STYLE_SCALE]
  constructor
  · have h1 : origDim / min h w ≤ style_scale_factor origDim length h w :=
      le_max_right _ _
    have h2 : origDim ≤ style_scale_factor origDim length h w * min h w :=
      (div_le_iff hm).mp h1
    calc STYLE_SCALE * origDim
        ≤ STYLE_SCALE * (style_scale_factor origDim length h w * min h w) :=
          mul_le_mul_of_nonneg_left h2 hs
      _ = scaled_style_short origDim length h w := by
          rw [scaled_style_short, mul_assoc]
  · have h1 : length / max h w ≤ style_scale_factor origDim length h w :=
      le_max_left _ _
    have h2 : length ≤ style_scale_factor origDim length h w * max h w :=
      (div_le_iff hM).mp h1
    calc STYLE_SCALE * length
        ≤ STYLE_SCALE * (style_scale_factor origDim length h w * max h w) :=
          mul_le_mul_of_nonneg_left h2 hs
      _ = scaled_style_long origDim length h w := by
          rw [scaled_style_long, mul_assoc]

/-- C5 witness: the amended bounds evaluated at network input size 224, target
length 512 and a 100x100 style image. -/
theorem scaled_style_bounds_witness :
    (0 : ℚ) < 100
      ∧ (STYLE_SCALE * 224 ≤ scaled_style_short 224 512 100 100
        ∧ STYLE_SCALE * 512 ≤ scaled_style_long 224 512 100 100) :=
  ⟨by norm_num, scaled_style_bounds 224 512 100 100 (by norm_num) (by norm_num)⟩

/-- C6: when the seed image's element count `sz` is divisible by 3, the bounds
list has length `sz` and consists of three equal contiguous blocks of `sz/3`
identical pairs — channel 0 first, then channel 1, then channel 2 — the pair
for channel `i` being `(-mean i, -mean i + 255)`. -/
theorem transfer_data_bounds_spec (mean : Fin 3 → ℚ) (sz : ℕ) (h3 : 3 ∣ sz) :
    (transfer_data_bounds mean sz).length = sz
      ∧ ∀ i, i < sz → (transfer_data_bounds mean sz).getD i (0, 0)
          = if i < sz / 3 then (-mean 0, -mean 0 + 255)
            else if i < 2 * (sz / 3) then (-mean 1, -mean 1 + 255)
            else (-mean 2, -mean 2 + 255) := by
  constructor
  · simp only [transfer_data_bounds, data_bounds, List.length_append,
      List.length_replicate]
    omega
  · intro i hi
    unfold transfer_data_bounds data_bounds
    by_cases h1 : i < sz / 3
    · rw [if_pos h1,
        List.getD_append _ _ _ _ (by simpa using h1),
        List.getD_eq_getElem _ _ (by simpa using h1), List.getElem_replicate]
    · rw [if_neg h1,
        List.getD_append_right _ _ _ _ (by simpa using not_lt.mp h1),
        List.length_replicate]
      by_cases h2 : i < 2 * (sz / 3)
      · have hlt : i - sz / 3 < sz / 3 := by omega
        rw [if_pos h2,
          List.getD_append _ _ _ _ (by simpa using hlt),
          List.getD_eq_getElem _ _ (by simpa using hlt), List.getElem_replicate]
      · have hge : sz / 3 ≤ i - sz / 3 := by omega
        have hlt : i - sz / 3 - sz / 3 < sz / 3 := by omega
        rw [if_neg h2,
          List.getD_append_right _ _ _ _ (by simpa using hge),
          List.length_replicate,
          List.getD_eq_getElem _ _ (by simpa using hlt), List.getElem_replicate]

/-- C6 witness: the bounds property evaluated at a concrete mean and a seed
image of 6 elements. -/
theorem transfer_data_bounds_spec_witness :
    (3 ∣ 6)
      ∧ ((transfer_data_bounds meanEx 6).length = 6
        ∧ ∀ i, i < 6 → (transfer_data_bounds meanEx 6).getD i (0, 0)
            = if i < 6 / 3 then (-meanEx 0, -meanEx 0 + 255)
              else if i < 2 * (6 / 3) then (-meanEx 1, -meanEx 1 + 255)
              else (-meanEx 2, -meanEx 2 + 255)) :=
  ⟨by decide, transfer_data_bounds_spec meanEx 6 (by decide)⟩

/-- C7 counterexample: for an input of dtype float32 (of matching size), the
gradient returned by `style_optfn` has dtype float64, not the dtype of `x` —
line 130 hard-codes `astype(np.float64)`. -/
theorem style_optfn_dtype_cex :
    (style_optfn onetEx ⟨Dtype.float32, [5]⟩).map (fun r => r.2.dtype)
        = some Dtype.float64
      ∧ (⟨Dtype.float32, [5]⟩ : NdVec).dtype ≠ Dtype.float64 := by
  exact ⟨rfl, by decide⟩

/-- C7 (amended): for every flattened candidate whose size equals the
network's configured input size, `style_optfn` returns a pair
`(loss, gradient)` whose gradient is a 1-D array of the same length as `x`
and of dtype float64 (which coincides with the dtype of `x` for the
double-precision arrays `scipy.optimize.minimize` supplies, but not for every
`x`). -/
theorem style_optfn_grad_format (net : OptNet) (x : NdVec)
    (hx : x.data.length
      = net.inputShape.1 * net.inputShape.2.1 * net.inputShape.2.2) :
    ∃ l g, style_optfn net x = some (l, g)
      ∧ g.data.length = x.data.length ∧ g.dtype = Dtype.float64 := by
  refine ⟨net.lossAt x.data, ⟨Dtype.float64, net.dataDiff x.data⟩, ?_, ?_, rfl⟩
  · simp [style_optfn, hx]
  · rw [net.diff_shape x.data]
    exact hx.symm

/-- C7 witness: the format property evaluated at the concrete oracle and a
length-1 float64 input. -/
theorem style_optfn_grad_format_witness :
    (⟨Dtype.float64, [5]⟩ : NdVec).data.length
        = onetEx.inputShape.1 * onetEx.inputShape.2.1 * onetEx.inputShape.2.2
      ∧ ∃ l g, style_optfn onetEx ⟨Dtype.float64, [5]⟩ = some (l, g)
        ∧ g.data.length = (⟨Dtype.float64, [5]⟩ : NdVec).data.length
        ∧ g.dtype = Dtype.float64 :=
  ⟨rfl, style_optfn_grad_format onetEx ⟨Dtype.float64, [5]⟩ rfl⟩

/-- C8 counterexample: `transfer_style` returns only the iteration count, so
the final image is not recoverable from its return value — two optimizer
results with different final candidates `[0]` and `[1]` but the same `nit`
yield the same return value. -/
theorem transfer_style_return_cex :
    ¬ ∃ recover : ℕ → List ℚ,
        ∀ r : MinimizeResult, recover (transfer_style_return r) = r.x := by
  rintro ⟨f, hf⟩
  have h0 := hf ⟨[0], 0⟩
  have h1 := hf ⟨[1], 0⟩
  simp only [transfer_style_return] at h0 h1
  exact (by decide : ([0] : List ℚ) ≠ [1]) (h0.symm.trans h1)

/-- C8 (amended): `transfer_style` returns exactly the iteration count
actually performed (`minimize(...).nit`) and nothing else — its return value
does not depend on the optimizer's final candidate array (which stays in the
network's data blob and is retrieved separately via `get_generated`). -/
theorem transfer_style_return_nit (r : MinimizeResult) (x' : List ℚ) :
    transfer_style_return r = r.nit
      ∧ transfer_style_return { r with x := x' } = transfer_style_return r :=
  ⟨rfl, rfl⟩

/-- C9 counterexample: a network whose blob set `["data"]` lacks the weighted
layer `conv4_2`, yet construction succeeds (`.ok`, no `InvalidWeightsConfig`)
and silently yields an empty traversal list. -/
theorem st_init_no_validation_cex :
    "conv4_2" ∈ weighted_layers default_weights
      ∧ "conv4_2" ∉ ["data"]
      ∧ st_init ["data"]
          = .ok { grad_iter := 0, weights := default_weights, layers := [] } := by
  exact ⟨by decide, by decide, rfl⟩

/-- C9 (amended): construction never fails — no validation of the weights
configuration is performed; a weighted layer absent from the network's blob
set is silently omitted from the traversal list `self.layers`, which contains
only blobs that are both in the network and weighted. -/
theorem st_init_filters_layers (netBlobs : List String) :
    ∃ s, st_init netBlobs = .ok s
      ∧ s.grad_iter = 0
      ∧ s.weights = default_weights
      ∧ ∀ layer ∈ s.layers,
          layer ∈ netBlobs ∧ layer ∈ weighted_layers default_weights := by
  refine ⟨_, rfl, rfl, rfl, ?_⟩
  intro layer hl
  have hm := List.mem_filter.mp hl
  refine ⟨hm.1, ?_⟩
  have hb := hm.2
  simp only [Bool.or_eq_true, decide_eq_true_eq] at hb
  exact List.mem_append.mpr hb

theorem run_callbacks_spec (k : ℕ) (s : STState) :
    (run_callbacks k s).1.grad_iter = s.grad_iter + k
      ∧ (run_callbacks k s).2 = List.range' (s.grad_iter + 1) k := by
  induction k generalizing s with
  | zero => simp [run_callbacks]
  | succ k ih =>
    have h := ih { s with grad_iter := s.grad_iter + 1 }
    refine ⟨?_, ?_⟩
    · simp only [run_callbacks, st_callback, h.1]
      omega
    · simp only [run_callbacks, st_callback, h.2, List.range'_succ]

/-- C10: `grad_iter` starts at zero at construction and is only ever
incremented by the progress callback; after a first `transfer_style` call in
which the optimizer invokes the callback `k1` times, the counter is `k1`, and
the iteration numbers reported during a second call with `k2` callback
invocations are `k1+1, ..., k1+k2` — continuing from the first call, not
restarting at 1. -/
theorem grad_iter_continues (netBlobs : List String) (k1 k2 : ℕ) (s0 : STState)
    (h : st_init netBlobs = .ok s0) :
    s0.grad_iter = 0
      ∧ (run_callbacks k1 s0).1.grad_iter = k1
      ∧ (run_callbacks k2 (run_callbacks k1 s0).1).2 = List.range' (k1 + 1) k2 := by
  have hz : s0.grad_iter = 0 := by
    simp only [st_init, Except.ok.injEq] at h
    rw [← h]
  refine ⟨hz, ?_, ?_⟩
  · rw [(run_callbacks_spec k1 s0).1, hz, Nat.zero_add]
  · rw [(run_callbacks_spec k2 _).2, (run_callbacks_spec k1 s0).1, hz,
      Nat.zero_add]

/-- C10 witness: with two calls of two accepted iterations each on a network
exposing `conv1_1`, the second call reports iterations 3 and 4. -/
theorem grad_iter_continues_witness :
    st_init ["conv1_1"] = .ok stEx
      ∧ (stEx.grad_iter = 0
        ∧ (run_callbacks 2 stEx).1.grad_iter = 2
        ∧ (run_callbacks 2 (run_callbacks 2 stEx).1).2 = List.range' (2 + 1) 2) :=
  ⟨rfl, grad_iter_continues ["conv1_1"] 2 2 stEx rfl⟩
